import Mathlib

/-
Verification of the incremental vector store of `recipe-rag-assistant`
(`src/vector_store.py`, class `RealTimeFAISSStore`).

Modelling conventions:
* A Python recipe dict is a `Recipe` structure over the ten keys this
  program ever reads or writes; a missing key is `none`.
* The embedding collaborator is opaque and deterministic, so an index
  vector is represented by the text it embeds (`_create_search_text`);
  the FAISS flat index is a `List String` in insertion order.
  `Index.remove_ids` on `IndexFlatL2` removes the addressed row and
  compacts the remaining rows preserving order (`List.eraseIdx`), and
  `Index.add` appends at the end.
* The md5 content digest of `_hash_recipe` is modelled by the record's
  canonical serialised form itself (the tuple of fields in sorted key
  order, mirroring `json.dumps(..., sort_keys=True)`); the code only
  ever compares digests for equality, and the 8-character truncation
  stored in change-log entries is omitted.
* `datetime.now()` is passed to the mutating operations as an explicit
  `now` argument.
* Scores and distances use `ℚ` in place of Python floats; the exact
  decimal constants of the source (0.3, 0.2, ...) are representable.
* The FAISS retrieval `self.index.search(...)` is opaque (it depends on
  real embeddings), so `search` receives the returned
  (distance, position) candidate list as an argument; theorems quantify
  over every possible reply.
-/

namespace RecipeRag

/-! ### Python string helpers -/

/-- Python prefix test on character lists. -/
def isPrefixChars : List Char → List Char → Bool
  | [], _ => true
  | _ :: _, [] => false
  | a :: as, b :: bs => a = b && isPrefixChars as bs

/-- Python substring containment on character lists: the empty needle is
contained in everything, as in Python. -/
def isInfixChars (n : List Char) : List Char → Bool
  | [] => n.isEmpty
  | b :: bs => isPrefixChars n (b :: bs) || isInfixChars n bs

/-- Python `needle in hay` for strings. -/
def pyIn (needle hay : String) : Bool :=
  isInfixChars needle.data hay.data

/-- Python `str.lower()` (ASCII case mapping). -/
def pyLower (s : String) : String :=
  ⟨s.data.map Char.toLower⟩

/-- Python `sep.join(parts)`. -/
def joinWith (sep : String) : List String → String
  | [] => ""
  | [x] => x
  | x :: y :: rest => x ++ sep ++ joinWith sep (y :: rest)

/-- Python `str.strip()`: drop leading and trailing whitespace. -/
def pyStrip (s : String) : String :=
  ⟨((s.data.dropWhile Char.isWhitespace).reverse.dropWhile Char.isWhitespace).reverse⟩

/-- Helper of `pySplitWs`: the current (reversed) token is accumulated. -/
def splitWsAux : List Char → List Char → List (List Char)
  | [], cur => if cur.isEmpty then [] else [cur.reverse]
  | c :: rest, cur =>
    if c.isWhitespace then
      if cur.isEmpty then splitWsAux rest [] else cur.reverse :: splitWsAux rest []
    else
      splitWsAux rest (c :: cur)

/-- Python `str.split()` with no argument: split on whitespace runs,
dropping empty pieces. -/
def pySplitWs (s : String) : List String :=
  (splitWsAux s.data []).map (fun l => ⟨l⟩)

/-- Helper of `pySplitDot`: split at `'.'`, keeping empty pieces. -/
def splitDotAux : List Char → List Char → List (List Char)
  | [], cur => [cur.reverse]
  | c :: rest, cur =>
    if c = '.' then cur.reverse :: splitDotAux rest []
    else splitDotAux rest (c :: cur)

/-- Python `answer.split(".")`. -/
def pySplitDot (s : String) : List String :=
  (splitDotAux s.data []).map (fun l => ⟨l⟩)

/-! ### Data model -/

/-- A recipe dict. The parser (`recipe_parser.py`) produces exactly these
keys; the tombstone written by `delete_recipe` has only `title` and
`deleted`. A `none` field models an absent key. -/
structure Recipe where
  title : Option String := none
  time : Option String := none
  calories : Option Nat := none
  diet : Option String := none
  cuisine : Option String := none
  ingredients : Option (List String) := none
  steps : Option (List String) := none
  source : Option String := none
  content : Option String := none
  deleted : Option Bool := none
deriving DecidableEq, Repr, Inhabited

/-- Canonical serialised form of a recipe, fields in sorted key order as
`json.dumps(recipe, sort_keys=True)` emits them. The md5 digest is
modelled by this form itself (a collision-free digest). -/
structure RecipeHash where
  calories : Option Nat
  content : Option String
  cuisine : Option String
  deleted : Option Bool
  diet : Option String
  ingredients : Option (List String)
  source : Option String
  steps : Option (List String)
  time : Option String
  title : Option String
deriving DecidableEq, Repr

/-- `_hash_recipe`: content digest for change detection. -/
def hash_recipe (r : Recipe) : RecipeHash :=
  ⟨r.calories, r.content, r.cuisine, r.deleted, r.diet, r.ingredients,
   r.source, r.steps, r.time, r.title⟩

/-- `_create_search_text`: the text handed to the embedding model. -/
def create_search_text (r : Recipe) : String :=
  "\n        " ++ r.title.getD "" ++
  "\n        " ++ r.cuisine.getD "" ++
  "\n        " ++ r.diet.getD "" ++
  "\n        " ++ joinWith " " (r.ingredients.getD []) ++
  "\n        " ++ joinWith " " (r.steps.getD []) ++
  "\n        "

/-- One entry of `self.changes`. The update path writes all six keys;
the add path writes no hashes; the delete path writes neither hashes nor
user. Absent keys are `none`. -/
structure ChangeEntry where
  title : String
  action : String
  old_hash : Option RecipeHash := none
  new_hash : Option RecipeHash := none
  user : Option String := none
  time : String
deriving DecidableEq, Repr

/-- The result dict of `add_or_update`. -/
structure AddResult where
  success : Bool
  action : String
  title : String
deriving DecidableEq, Repr, Inhabited

/-- In-memory state of `RealTimeFAISSStore`: the record table, the
`title -> slot` dict, the change log and the FAISS index (vectors tagged
by the text they embed). -/
structure StoreState where
  recipes : List Recipe
  title_to_idx : List (String × Nat)
  changes : List ChangeEntry
  index : List String
deriving DecidableEq, Repr

/-- `_create_new_index`: the fresh empty store. -/
def emptyStore : StoreState := ⟨[], [], [], []⟩

/-! ### Dict operations on the title map -/

/-- Python `d.get(k)` / `d[k]` lookup (keys are unique in a dict; the
model returns the first binding). -/
def dictGet (l : List (String × Nat)) (k : String) : Option Nat :=
  match l with
  | [] => none
  | (k1, v) :: rest => if k1 = k then some v else dictGet rest k

/-- Python `d[k] = v`: overwrite in place if present, else append. -/
def dictSet (l : List (String × Nat)) (k : String) (v : Nat) : List (String × Nat) :=
  if l.any (fun p => p.1 = k) then
    l.map (fun p => if p.1 = k then (p.1, v) else p)
  else
    l ++ [(k, v)]

/-- Python `del d[k]`. -/
def dictErase (l : List (String × Nat)) (k : String) : List (String × Nat) :=
  l.filter (fun p => p.1 ≠ k)

/-! ### Mutating operations -/

/-- `add_or_update(recipe, user)`: in-memory semantics (`_save` is the
persistence wrapper, modelled separately). -/
def add_or_update (s : StoreState) (recipe : Recipe) (user now : String) :
    StoreState × AddResult :=
  let title := recipe.title.getD "Unknown"
  let content_hash := hash_recipe recipe
  match dictGet s.title_to_idx title with
  | some idx =>
    let old_recipe := s.recipes.getD idx default
    let old_hash := hash_recipe old_recipe
    if old_hash = content_hash then
      (s, ⟨true, "no_change", title⟩)
    else
      let search_text := create_search_text recipe
      ({ recipes := s.recipes.set idx recipe,
         title_to_idx := s.title_to_idx,
         changes := s.changes ++ [⟨title, "update", some old_hash,
           some content_hash, some user, now⟩],
         index := s.index.eraseIdx idx ++ [search_text] },
       ⟨true, "updated", title⟩)
  | none =>
    let idx := s.recipes.length
    let search_text := create_search_text recipe
    ({ recipes := s.recipes ++ [recipe],
       title_to_idx := dictSet s.title_to_idx title idx,
       changes := s.changes ++ [⟨title, "add", none, none, some user, now⟩],
       index := s.index ++ [search_text] },
     ⟨true, "added", title⟩)

/-- `delete_recipe(title)`: soft delete. The vector stays in the index. -/
def delete_recipe (s : StoreState) (title now : String) : StoreState × Bool :=
  match dictGet s.title_to_idx title with
  | some idx =>
    ({ recipes := s.recipes.set idx { title := some title, deleted := some true },
       title_to_idx := dictErase s.title_to_idx title,
       changes := s.changes ++ [⟨title, "delete", none, none, none, now⟩],
       index := s.index },
     true)
  | none => (s, false)

/-- `get_recipe(title)`. -/
def get_recipe (s : StoreState) (title : String) : Option Recipe :=
  match dictGet s.title_to_idx title with
  | some idx => some (s.recipes.getD idx default)
  | none => none

/-- `get_all_recipes()`. -/
def get_all_recipes (s : StoreState) : List Recipe :=
  s.recipes

/-! ### Configuration and the persistence wrapper -/

/-- The configuration fields `vector_store.py` consumes
(`config.py`: `AUTO_SAVE = True`, `TOP_K = 5`, `SIM_THRESHOLD = 0.6`). -/
structure Config where
  AUTO_SAVE : Bool
  TOP_K : Nat
  SIM_THRESHOLD : ℚ
deriving DecidableEq, Repr

def defaultConfig : Config := ⟨true, 5, 6/10⟩

/-- `add_or_update` together with the `_save()` call it performs on every
mutating path. `saveOk` is whether the filesystem write succeeds; `_save`
has no exception handler, so a failing write escapes the call as an
exception (`Except.error`) while the in-memory state, mutated before
`_save` runs, is kept. The `no_change` path returns before `_save`. -/
def add_or_update_with_save (cfg : Config) (s : StoreState) (recipe : Recipe)
    (user now : String) (saveOk : Bool) : StoreState × Except Unit AddResult :=
  let (s1, res) := add_or_update s recipe user now
  if res.action = "no_change" then
    (s1, Except.ok res)
  else if cfg.AUTO_SAVE && !saveOk then
    (s1, Except.error ())
  else
    (s1, Except.ok res)

/-- `delete_recipe` together with its `_save()` call; the not-found path
returns `False` without saving. -/
def delete_recipe_with_save (cfg : Config) (s : StoreState) (title now : String)
    (saveOk : Bool) : StoreState × Except Unit Bool :=
  let (s1, found) := delete_recipe s title now
  if found && cfg.AUTO_SAVE && !saveOk then
    (s1, Except.error ())
  else
    (s1, Except.ok found)

/-! ### Search engine -/

/-- The optional `filters` dict of `search`; each field, absent or falsy
(the empty string), is ignored by the code. -/
structure Filters where
  cuisine : Option String := none
  diet : Option String := none
deriving DecidableEq, Repr

/-- One element of the `results` list: the spread of the recipe dict plus
`similarity`, `validation_score` and `confidence`. -/
structure SearchResult where
  recipe : Recipe
  similarity : ℚ
  validation_score : ℚ
  confidence : String
deriving DecidableEq, Repr, Inhabited

/-- The `+0.3` title clause of `_validate_match`. -/
def titleScore (query_lower : String) (r : Recipe) : ℚ :=
  if pyIn (pyLower (r.title.getD "")) query_lower then 3/10 else 0

/-- The per-token ingredient clause of `_validate_match`: `+0.1` for every
query token longer than 3 characters occurring in the joined ingredient
text (tokens counted with multiplicity, as the loop does). -/
def ingredientScore (query_lower : String) (r : Recipe) : ℚ :=
  let ingredients_text := pyLower (joinWith " " (r.ingredients.getD []))
  ((pySplitWs query_lower).filter
    (fun w => w.length > 3 && pyIn w ingredients_text)).length * (1/10)

/-- The `+0.2` cuisine clause of `_validate_match`. -/
def cuisineScore (query_lower : String) (r : Recipe) : ℚ :=
  if pyIn (pyLower (r.cuisine.getD "")) query_lower then 2/10 else 0

/-- The `+0.2` diet clause of `_validate_match`. -/
def dietScore (query_lower : String) (r : Recipe) : ℚ :=
  if pyIn (pyLower (r.diet.getD "")) query_lower then 2/10 else 0

/-- `_validate_match(query, recipe)`: the additive heuristic score,
capped at 1. -/
def validate_match (query : String) (r : Recipe) : ℚ :=
  let query_lower := pyLower query
  min 1 (titleScore query_lower r + ingredientScore query_lower r +
    cuisineScore query_lower r + dietScore query_lower r)

/-- `_get_confidence_level(similarity, validation)`. -/
def get_confidence_level (similarity validation : ℚ) : String :=
  let combined := (similarity + validation) / 2
  if combined > 7/10 then "high"
  else if combined > 4/10 then "medium"
  else "low"

/-- The `filters` test of the search loop: `continue` when a truthy
cuisine (resp. diet) filter value differs from the record's field.
An absent record field (`None`) never equals a truthy filter string. -/
def filterReject (fl : Filters) (r : Recipe) : Bool :=
  (match fl.cuisine with
   | some c => c ≠ "" && r.cuisine ≠ some c
   | none => false) ||
  (match fl.diet with
   | some d => d ≠ "" && r.diet ≠ some d
   | none => false)

/-- The candidate loop of `search`, over the (distance, position) pairs the
FAISS index returned, in order. Mirrors the source: skip positions past the
table, apply filters, apply the similarity threshold, append, and break
once `k` results have been accepted. -/
def searchLoop (cfg : Config) (s : StoreState) (query : String)
    (fl : Option Filters) (k : Nat) (acc : List SearchResult) :
    List (ℚ × Nat) → List SearchResult
  | [] => acc
  | (dist, idx) :: rest =>
    if idx ≥ s.recipes.length then
      searchLoop cfg s query fl k acc rest
    else
      let recipe := s.recipes.getD idx default
      let similarity := 1 / (1 + dist)
      if (match fl with
          | some f => filterReject f recipe
          | none => false) then
        searchLoop cfg s query fl k acc rest
      else if similarity ≥ cfg.SIM_THRESHOLD then
        let acc2 := acc ++ [⟨recipe, similarity, validate_match query recipe,
          get_confidence_level similarity (validate_match query recipe)⟩]
        if acc2.length ≥ k then acc2 else searchLoop cfg s query fl k acc2 rest
      else
        searchLoop cfg s query fl k acc rest

/-- The aggregate report of `_generate_validation_report`. Absent keys of
the two dict shapes are `none`. -/
structure ValidationReport where
  confidence : String
  message : Option String := none
  avg_similarity : Option ℚ := none
  avg_validation : Option ℚ := none
  issues : List String := []
deriving DecidableEq, Repr

/-- `_generate_validation_report(query, results)`. -/
def generate_validation_report (results : List SearchResult) : ValidationReport :=
  if results = [] then
    { confidence := "low", message := some "No results found" }
  else
    let n : ℚ := results.length
    let avg_similarity := (results.map (fun r => r.similarity)).sum / n
    let avg_validation := (results.map (fun r => r.validation_score)).sum / n
    { confidence := get_confidence_level avg_similarity avg_validation,
      avg_similarity := some avg_similarity,
      avg_validation := some avg_validation,
      issues :=
        (if avg_similarity < 3/10 then ["Low semantic similarity"] else []) ++
        (if avg_validation < 2/10 then ["Limited keyword matching"] else []) }

/-- The result dict of `search`. -/
structure SearchOutput where
  query : String
  results : List SearchResult
  count : Nat
  validation : ValidationReport
deriving DecidableEq, Repr

/-- `search(query, filters, k)`. The reply of the opaque FAISS retrieval
(`self.index.search` on the query embedding) is the `neighbors` argument;
`k = none` models the default `k=None`, replaced by `TOP_K`. -/
def search (cfg : Config) (s : StoreState) (query : String)
    (fl : Option Filters) (k : Option Nat) (neighbors : List (ℚ × Nat)) :
    SearchOutput :=
  let k := k.getD cfg.TOP_K
  let results := searchLoop cfg s query fl k [] neighbors
  { query := query,
    results := results,
    count := results.length,
    validation := generate_validation_report results }

/-! ### Answer validator -/

/-- The result dict of `validate_answer`; the empty-sources early return
carries no `sources_checked` key. -/
structure AnswerValidation where
  valid : Bool
  score : ℚ
  confidence : String
  sources_checked : Option Nat := none
deriving DecidableEq, Repr

/-- The fact extraction of `validate_answer`: split the answer at `"."`,
strip, keep fragments longer than 10 characters. -/
def extract_facts (answer : String) : List String :=
  ((pySplitDot answer).map pyStrip).filter (fun s => s.length > 10)

/-- `json.dumps(source, ensure_ascii=False)` for a recipe dict: keys in
the parser's insertion order, absent keys omitted (string escaping is not
modelled; none of the verified properties depend on the blob's shape). -/
def dump_json (r : Recipe) : String :=
  let q := fun (s : String) => "\x22" ++ s ++ "\x22"
  let strField := fun (k : String) (v : Option String) =>
    (v.map (fun s => q k ++ ": " ++ q s)).toList
  let listField := fun (k : String) (v : Option (List String)) =>
    (v.map (fun l => q k ++ ": [" ++ joinWith ", " (l.map q) ++ "]")).toList
  let fields :=
    strField "title" r.title ++
    strField "time" r.time ++
    (r.calories.map (fun n => q "calories" ++ ": " ++ toString n)).toList ++
    strField "diet" r.diet ++
    strField "cuisine" r.cuisine ++
    listField "ingredients" r.ingredients ++
    listField "steps" r.steps ++
    strField "source" r.source ++
    strField "content" r.content ++
    (r.deleted.map (fun b => q "deleted" ++ ": " ++ toString b)).toList
  "\x7b" ++ joinWith ", " fields ++ "\x7d"

/-- The per-fact match test of `validate_answer`: the set of the fact's
tokens longer than 3 characters overlaps the source blob's token set in
ratio above 0.3 (an empty token set never matches, per the `if fact_words`
guard). -/
def fact_matches (fact : String) (source_words : List String) : Bool :=
  let fact_words := ((pySplitWs (pyLower fact)).filter (fun w => w.length > 3)).dedup
  if fact_words ≠ [] then
    ((fact_words.filter (fun w => w ∈ source_words)).length : ℚ) / fact_words.length > 3/10
  else
    false

/-- `validate_answer(answer, sources)`. -/
def validate_answer (answer : String) (sources : List Recipe) : AnswerValidation :=
  if sources = [] then
    ⟨false, 0, "low", none⟩
  else
    let facts := extract_facts answer
    let validation_scores := sources.map (fun source =>
      let source_words := pySplitWs (pyLower (dump_json source))
      let matched := (facts.filter (fun f => fact_matches f source_words)).length
      if facts ≠ [] then (matched : ℚ) / facts.length else 0)
    let avg_score := validation_scores.sum / (validation_scores.length : ℚ)
    ⟨decide (avg_score > 3/10), avg_score,
     if avg_score > 6/10 then "high"
     else if avg_score > 3/10 then "medium"
     else "low",
     some sources.length⟩

/-! ### Spec-side definitions for the answer-validation contract -/

/-- Written from the claim, not the source: the overlap ratio of a fact
with a source text — the fraction of the fact's distinct tokens longer
than 3 characters that occur among the source text's tokens (0 when the
fact has no such token). -/
def claimOverlapFrac (fact sourceText : String) : ℚ :=
  let toks := ((pySplitWs (pyLower fact)).filter (fun w => w.length > 3)).dedup
  ((toks.filter (fun w => w ∈ pySplitWs sourceText)).length : ℚ) / toks.length

/-- Written from the claim: a source's score is the fraction of facts
whose overlap ratio with the source text exceeds 0.3. -/
def claimSourceScore (facts : List String) (source : Recipe) : ℚ :=
  ((facts.filter (fun f =>
    claimOverlapFrac f (pyLower (dump_json source)) > 3/10)).length : ℚ) /
  facts.length

/-- Written from the claim: the mean per-source score. -/
def claimMeanScore (answer : String) (sources : List Recipe) : ℚ :=
  (sources.map (claimSourceScore (extract_facts answer))).sum / sources.length

/-! ### Well-formedness -/

/-- Every slot the title map points at exists in the record table.
Holds for every state the class constructs. -/
def WF (s : StoreState) : Prop :=
  ∀ p ∈ s.title_to_idx, p.2 < s.recipes.length

instance (s : StoreState) : Decidable (WF s) :=
  inferInstanceAs (Decidable (∀ p ∈ s.title_to_idx, p.2 < s.recipes.length))

/-! ### Concrete fixtures (parser-shaped records) -/

def recPasta : Recipe :=
  { title := some "Pasta", time := some "20 min", cuisine := some "Italian",
    diet := some "", ingredients := some ["pasta", "garlic"],
    steps := some ["Boil the pasta"], source := some "pasta.md",
    content := some "Title: Pasta" }

def recSoup : Recipe :=
  { title := some "Soup", time := some "30 min", cuisine := some "French",
    diet := some "", ingredients := some ["onion", "stock"],
    steps := some ["Simmer the stock"], source := some "soup.md",
    content := some "Title: Soup" }

def recPastaV2 : Recipe :=
  { title := some "Pasta", time := some "25 min", cuisine := some "Italian",
    diet := some "Vegetarian", ingredients := some ["pasta", "garlic", "basil"],
    steps := some ["Boil the pasta", "Add basil"], source := some "pasta.md",
    content := some "Title: Pasta v2" }

def recThai : Recipe :=
  { title := some "Curry", time := some "40 min", cuisine := some "Thai",
    diet := some "", ingredients := some ["rice", "curry paste"],
    steps := some ["Cook the rice"], source := some "curry.md",
    content := some "Title: Curry" }

def recNoTitleA : Recipe :=
  { time := some "10 min", cuisine := some "Thai", ingredients := some ["rice"] }

def recNoTitleB : Recipe :=
  { time := some "15 min", cuisine := some "Greek", ingredients := some ["feta"] }

/-- State for the C1 scenario: `recPasta` added, then soft-deleted. -/
def stateC1 : StoreState :=
  (delete_recipe (add_or_update emptyStore recPasta "u" "t1").1 "Pasta" "t2").1

/-- State for the C2 scenario: add `recPasta`, add `recSoup`, then update
`"Pasta"` with changed content (`recPastaV2`). -/
def stateC2 : StoreState :=
  (add_or_update
    (add_or_update (add_or_update emptyStore recPasta "u" "t1").1 recSoup "u" "t2").1
    recPastaV2 "u" "t3").1

/-- State for the C8 scenario: just `recThai`. -/
def stateC8 : StoreState :=
  (add_or_update emptyStore recThai "u" "t1").1

/-! ### Helper lemmas -/

theorem isInfixChars_nil (l : List Char) : isInfixChars [] l = true := by
  cases l <;> simp [isInfixChars, isPrefixChars, List.isEmpty]

theorem pyIn_empty_needle (s : String) : pyIn "" s = true := by
  simpa [pyIn] using isInfixChars_nil s.data

theorem dictGet_mem {l : List (String × Nat)} {k : String} {v : Nat}
    (h : dictGet l k = some v) : (k, v) ∈ l := by
  induction l with
  | nil => simp [dictGet] at h
  | cons p rest ih =>
    rcases p with ⟨k1, v1⟩
    by_cases hk : k1 = k
    · subst hk
      simp [dictGet] at h
      simp [h]
    · simp [dictGet, hk] at h
      exact List.mem_cons_of_mem _ (ih h)

theorem dictGet_none_any {l : List (String × Nat)} {k : String}
    (h : dictGet l k = none) : l.any (fun p => p.1 = k) = false := by
  induction l with
  | nil => simp
  | cons p rest ih =>
    rcases p with ⟨k1, v1⟩
    by_cases hk : k1 = k
    · subst hk; simp [dictGet] at h
    · simp [dictGet, hk] at h
      simp [hk, ih h]

theorem dictGet_append_single {l : List (String × Nat)} {k : String} (v : Nat)
    (h : dictGet l k = none) : dictGet (l ++ [(k, v)]) k = some v := by
  induction l with
  | nil => simp [dictGet]
  | cons p rest ih =>
    rcases p with ⟨k1, v1⟩
    by_cases hk : k1 = k
    · subst hk; simp [dictGet] at h
    · simp [dictGet, hk] at h ⊢
      exact ih h

theorem dictGet_dictSet_self {l : List (String × Nat)} {k : String} (v : Nat)
    (h : dictGet l k = none) : dictGet (dictSet l k v) k = some v := by
  rw [dictSet, dictGet_none_any h]
  simp only [Bool.false_eq_true, if_false]
  exact dictGet_append_single v h

theorem getD_append_length (l : List α) (a d : α) : (l ++ [a]).getD l.length d = a := by
  induction l with
  | nil => rfl
  | cons x xs ih => exact ih

theorem getD_set_self (l : List α) (i : Nat) (a d : α) (h : i < l.length) :
    (l.set i a).getD i d = a := by
  induction l generalizing i with
  | nil => simp at h
  | cons x xs ih =>
    cases i with
    | zero => rfl
    | succ j => simpa using ih j (by simpa using h)

theorem length_eraseIdx_add_one {l : List α} {i : Nat} (h : i < l.length) :
    (l.eraseIdx i).length + 1 = l.length := by
  induction l generalizing i with
  | nil => simp at h
  | cons x xs ih =>
    cases i with
    | zero => simp [List.eraseIdx]
    | succ j =>
      have hj : j < xs.length := by simpa using h
      simpa [List.eraseIdx] using ih hj

theorem getD_zero_mem {l : List α} (d : α) (h : l ≠ []) : l.getD 0 d ∈ l := by
  cases l with
  | nil => exact absurd rfl h
  | cons x xs => simp

/-! ### Basic lemmas -/

theorem hash_recipe_injective {a b : Recipe} (h : hash_recipe a = hash_recipe b) :
    a = b := by
  cases a
  cases b
  simp only [hash_recipe, RecipeHash.mk.injEq] at h
  simp_all

/-! ### Score lemmas for empty fields -/

theorem pyIn_empty_hay (w : String) : pyIn w "" = w.data.isEmpty := by
  rfl

theorem titleScore_empty (ql : String) (r : Recipe) (h : r.title.getD "" = "") :
    titleScore ql r = 3/10 := by
  simp [titleScore, h, show pyLower "" = "" from rfl, pyIn_empty_needle]

theorem cuisineScore_empty (ql : String) (r : Recipe) (h : r.cuisine.getD "" = "") :
    cuisineScore ql r = 2/10 := by
  simp [cuisineScore, h, show pyLower "" = "" from rfl, pyIn_empty_needle]

theorem dietScore_empty (ql : String) (r : Recipe) (h : r.diet.getD "" = "") :
    dietScore ql r = 2/10 := by
  simp [dietScore, h, show pyLower "" = "" from rfl, pyIn_empty_needle]

theorem ingredientScore_no_ingredients (ql : String) (r : Recipe)
    (h : r.ingredients.getD [] = []) : ingredientScore ql r = 0 := by
  have hfil : ∀ w : String, (decide (w.length > 3) && pyIn w (pyLower (joinWith " " []))) = false := by
    intro w
    rcases hw : w.data.isEmpty with _ | _
    · have : pyIn w (pyLower (joinWith " " [])) = false := by
        rw [show pyLower (joinWith " " []) = "" from rfl, pyIn_empty_hay, hw]
      simp [this]
    · have hlen : w.length = 0 := by
        rcases w with ⟨l⟩
        cases l with
        | nil => rfl
        | cons c cs => simp [List.isEmpty] at hw
      simp [hlen]
  simp only [ingredientScore, h]
  rw [List.filter_congr (fun w _ => hfil w)]
  simp

/-! ### Branch equations for the mutating operations -/

theorem add_branch (s : StoreState) (rec : Recipe) (u t : String)
    (h : dictGet s.title_to_idx (rec.title.getD "Unknown") = none) :
    add_or_update s rec u t =
      ({ recipes := s.recipes ++ [rec],
         title_to_idx := dictSet s.title_to_idx (rec.title.getD "Unknown")
           s.recipes.length,
         changes := s.changes ++
           [⟨rec.title.getD "Unknown", "add", none, none, some u, t⟩],
         index := s.index ++ [create_search_text rec] },
       ⟨true, "added", rec.title.getD "Unknown"⟩) := by
  simp only [add_or_update, h]

theorem nochange_branch (s : StoreState) (rec : Recipe) (u t : String) (idx : Nat)
    (h : dictGet s.title_to_idx (rec.title.getD "Unknown") = some idx)
    (hh : hash_recipe (s.recipes.getD idx default) = hash_recipe rec) :
    add_or_update s rec u t = (s, ⟨true, "no_change", rec.title.getD "Unknown"⟩) := by
  simp only [add_or_update, h]
  rw [if_pos hh]

theorem update_branch (s : StoreState) (rec : Recipe) (u t : String) (idx : Nat)
    (h : dictGet s.title_to_idx (rec.title.getD "Unknown") = some idx)
    (hh : ¬ hash_recipe (s.recipes.getD idx default) = hash_recipe rec) :
    add_or_update s rec u t =
      ({ recipes := s.recipes.set idx rec,
         title_to_idx := s.title_to_idx,
         changes := s.changes ++
           [⟨rec.title.getD "Unknown", "update",
             some (hash_recipe (s.recipes.getD idx default)),
             some (hash_recipe rec), some u, t⟩],
         index := s.index.eraseIdx idx ++ [create_search_text rec] },
       ⟨true, "updated", rec.title.getD "Unknown"⟩) := by
  simp only [add_or_update, h]
  rw [if_neg hh]

theorem delete_found_branch (s : StoreState) (title now : String) (idx : Nat)
    (h : dictGet s.title_to_idx title = some idx) :
    delete_recipe s title now =
      ({ recipes := s.recipes.set idx { title := some title, deleted := some true },
         title_to_idx := dictErase s.title_to_idx title,
         changes := s.changes ++ [⟨title, "delete", none, none, none, now⟩],
         index := s.index },
       true) := by
  simp only [delete_recipe, h]

theorem delete_missing_branch (s : StoreState) (title now : String)
    (h : dictGet s.title_to_idx title = none) :
    delete_recipe s title now = (s, false) := by
  simp only [delete_recipe, h]

/-! ### Claims -/

/-- C1: the claim fails on the code. After `delete_recipe "Pasta"` returns
`true`, a `search` whose FAISS reply names the orphaned vector (position 0,
distance 0) returns the deleted title: the candidate loop checks only
`idx >= len(recipes)`, never that the position still maps to a title nor
the record's `deleted` flag, so the tombstoned record is included. -/
theorem C1_search_returns_deleted_title :
    (delete_recipe (add_or_update emptyStore recPasta "u" "t1").1 "Pasta" "t2").2 = true ∧
    (search defaultConfig stateC1 "pasta dinner" none none [(0, 0)]).results.map
      (fun r => r.recipe.title) = [some "Pasta"] ∧
    stateC1.recipes.getD 0 default = { title := some "Pasta", deleted := some true } := by
  refine ⟨by decide, ?_, by decide⟩
  simp only [search, searchLoop, stateC1, defaultConfig, recPasta, emptyStore, add_or_update,
    delete_recipe, dictGet, dictSet, dictErase, hash_recipe, create_search_text, joinWith,
    validate_match, titleScore, ingredientScore, cuisineScore, dietScore, pyIn, pyLower,
    pySplitWs, splitWsAux, isInfixChars, isPrefixChars, get_confidence_level]
  norm_num

/-- C2: the claim fails on the code. After adding `"Pasta"` and `"Soup"`
and then updating `"Pasta"` with changed content, slot 0 still maps to
`"Pasta"` in the table, but `remove_ids` compacted the flat index (the
soup vector slid into position 0) and the new pasta vector was appended at
position 1, so table slots and index positions are no longer aligned. -/
theorem C2_index_misaligned_after_update :
    dictGet stateC2.title_to_idx "Pasta" = some 0 ∧
    stateC2.recipes.getD 0 default = recPastaV2 ∧
    stateC2.index = [create_search_text recSoup, create_search_text recPastaV2] ∧
    create_search_text recSoup ≠ create_search_text recPastaV2 := by
  refine ⟨by decide, by decide, by decide, by decide⟩

/-- C3: calling `add_or_update` a second time with the identical record
returns `no_change` and leaves the whole state — record table, title map,
change log and vector index — exactly as after the first call, hence no
index mutation, no appended log entry and an unchanged index size. -/
theorem C3_add_or_update_idempotent (s : StoreState) (rec : Recipe)
    (u1 u2 t1 t2 : String) (hwf : WF s) :
    add_or_update (add_or_update s rec u1 t1).1 rec u2 t2 =
      ((add_or_update s rec u1 t1).1,
       ⟨true, "no_change", rec.title.getD "Unknown"⟩) := by
  cases h : dictGet s.title_to_idx (rec.title.getD "Unknown") with
  | none =>
    rw [add_branch s rec u1 t1 h]
    exact nochange_branch _ rec u2 t2 s.recipes.length
      (dictGet_dictSet_self _ h)
      (by rw [getD_append_length])
  | some idx =>
    have hidx : idx < s.recipes.length := hwf _ (dictGet_mem h)
    by_cases hh : hash_recipe (s.recipes.getD idx default) = hash_recipe rec
    · rw [nochange_branch s rec u1 t1 idx h hh]
      exact nochange_branch s rec u2 t2 idx h hh
    · rw [update_branch s rec u1 t1 idx h hh]
      exact nochange_branch _ rec u2 t2 idx h
        (by rw [getD_set_self _ _ _ _ hidx])

/-- C3 witness: the general theorem applied to the empty store and a
concrete record. -/
theorem C3_add_or_update_idempotent_witness :
    add_or_update (add_or_update emptyStore recPasta "u1" "t1").1 recPasta "u2" "t2" =
      ((add_or_update emptyStore recPasta "u1" "t1").1,
       ⟨true, "no_change", recPasta.title.getD "Unknown"⟩) :=
  C3_add_or_update_idempotent emptyStore recPasta "u1" "u2" "t1" "t2" (by decide)

/-- C4 counterexample: the scorer never raises, but the claim's
"absent field contributes exactly zero" fails: on the all-absent record
the query `"xyzw"` scores `0.3 + 0.2 + 0.2 = 0.7`, because the empty
string obtained from an absent title, cuisine or diet is a substring of
every query, so the empty cuisine and diet each do receive the `+0.2`
bonus the claim rules out. -/
theorem C4_empty_fields_receive_bonus :
    validate_match "xyzw" {} = 7/10 ∧
    cuisineScore (pyLower "xyzw") { cuisine := some "" } = 2/10 ∧
    dietScore (pyLower "xyzw") {} = 2/10 ∧
    ((7 : ℚ)/10) ≠ 0 := by
  refine ⟨?_, cuisineScore_empty _ _ rfl, dietScore_empty _ _ rfl, by norm_num⟩
  simp only [validate_match, titleScore_empty (pyLower "xyzw") {} rfl,
    cuisineScore_empty (pyLower "xyzw") {} rfl, dietScore_empty (pyLower "xyzw") {} rfl,
    ingredientScore_no_ingredients (pyLower "xyzw") {} rfl]
  rw [min_eq_right (by norm_num)]
  norm_num

/-- C4 amended: the heuristic scorer is total on records with absent
optional fields and an absent ingredients list contributes exactly zero;
but an absent or empty title, cuisine or diet is read back as the empty
string, which is a Python substring of every query, so an empty cuisine or
diet receives its full `+0.2` bonus (and an empty title `+0.3`) for every
query rather than contributing zero. -/
theorem C4_absent_field_contributions (ql : String) (r : Recipe) :
    (r.ingredients = none → ingredientScore ql r = 0) ∧
    (r.cuisine = none ∨ r.cuisine = some "" → cuisineScore ql r = 2/10) ∧
    (r.diet = none ∨ r.diet = some "" → dietScore ql r = 2/10) ∧
    (r.title = none ∨ r.title = some "" → titleScore ql r = 3/10) := by
  refine ⟨fun h => ingredientScore_no_ingredients ql r (by rw [h]; rfl),
    ?_, ?_, ?_⟩
  · rintro (h | h) <;> exact cuisineScore_empty ql r (by rw [h]; rfl)
  · rintro (h | h) <;> exact dietScore_empty ql r (by rw [h]; rfl)
  · rintro (h | h) <;> exact titleScore_empty ql r (by rw [h]; rfl)

/-- C4 witness: the amended contributions at a concrete query and the
all-absent record. -/
theorem C4_absent_field_contributions_witness :
    ingredientScore "tofu stew" ({} : Recipe) = 0 ∧
    cuisineScore "tofu stew" ({} : Recipe) = 2/10 ∧
    titleScore "tofu stew" ({} : Recipe) = 3/10 :=
  ⟨(C4_absent_field_contributions "tofu stew" {}).1 rfl,
   (C4_absent_field_contributions "tofu stew" {}).2.1 (Or.inl rfl),
   (C4_absent_field_contributions "tofu stew" {}).2.2.2 (Or.inl rfl)⟩

/-- C5 counterexample: with durability on, a failing persistence step
leaves the in-memory mutation applied (the record is stored) but the call
ends in a propagated error, not a returned warning-level outcome — the
claim's "still returns to the caller" is false. -/
theorem C5_persist_failure_propagates :
    (add_or_update_with_save defaultConfig emptyStore recPasta "u" "t1" false).2 =
      Except.error () ∧
    (add_or_update_with_save defaultConfig emptyStore recPasta "u" "t1" false).1.recipes =
      [recPasta] :=
  ⟨rfl, rfl⟩

/-- C5 amended: when durability is enabled and the persistence step fails,
the already-applied in-memory mutation is intact (the state equals the
pure mutated state), but `add_or_update` and `delete_recipe` propagate the
persistence failure to the caller as an error rather than returning a
warning-level outcome. -/
theorem C5_persist_failure_keeps_mutation (cfg : Config) (s : StoreState)
    (rec : Recipe) (title u t : String) (hauto : cfg.AUTO_SAVE = true) :
    ((add_or_update_with_save cfg s rec u t false).1 = (add_or_update s rec u t).1 ∧
      ((add_or_update s rec u t).2.action ≠ "no_change" →
        (add_or_update_with_save cfg s rec u t false).2 = Except.error ())) ∧
    ((delete_recipe_with_save cfg s title t false).1 = (delete_recipe s title t).1 ∧
      ((delete_recipe s title t).2 = true →
        (delete_recipe_with_save cfg s title t false).2 = Except.error ())) := by
  constructor
  · rcases h1 : add_or_update s rec u t with ⟨s1, res⟩
    by_cases hres : res.action = "no_change" <;>
      simp [add_or_update_with_save, h1, hres, hauto]
  · rcases h2 : delete_recipe s title t with ⟨s2, found⟩
    cases found <;> simp [delete_recipe_with_save, h2, hauto]

/-- C5 witness: the amended behaviour at a concrete store holding one
recipe; the added record and the deleted record both keep their in-memory
effect while the call errors out. -/
theorem C5_persist_failure_keeps_mutation_witness :
    (add_or_update_with_save defaultConfig stateC8 recPasta "u" "t9" false).1 =
      (add_or_update stateC8 recPasta "u" "t9").1 ∧
    (add_or_update_with_save defaultConfig stateC8 recPasta "u" "t9" false).2 =
      Except.error () ∧
    (delete_recipe_with_save defaultConfig stateC8 "Curry" "t9" false).2 =
      Except.error () :=
  ⟨(C5_persist_failure_keeps_mutation defaultConfig stateC8 recPasta "Curry" "u" "t9" rfl).1.1,
   (C5_persist_failure_keeps_mutation defaultConfig stateC8 recPasta "Curry" "u" "t9" rfl).1.2
     (by decide),
   (C5_persist_failure_keeps_mutation defaultConfig stateC8 recPasta "Curry" "u" "t9" rfl).2.2
     (by decide)⟩

/-- C6 counterexample: the entry logged by the add path carries no
`old_hash` and no `new_hash` key, and the entry logged by the delete path
carries neither hashes nor `user` — so not every appended entry contains
all six fields the claim lists. -/
theorem C6_add_and_delete_entries_incomplete :
    (add_or_update emptyStore recPasta "u" "t1").1.changes =
      [⟨"Pasta", "add", none, none, some "u", "t1"⟩] ∧
    (delete_recipe (add_or_update emptyStore recPasta "u" "t1").1 "Pasta" "t2").1.changes =
      [⟨"Pasta", "add", none, none, some "u", "t1"⟩,
       ⟨"Pasta", "delete", none, none, none, "t2"⟩] :=
  ⟨rfl, rfl⟩

/-- C6 amended: update entries carry all six fields (title, action, both
hashes, user, timestamp); add entries carry title, action, user and
timestamp but no hash fields; delete entries carry only title, action and
timestamp, with no hashes and no user. -/
theorem C6_change_entry_shapes (s : StoreState) (rec : Recipe)
    (u t title now : String) :
    (dictGet s.title_to_idx (rec.title.getD "Unknown") = none →
      (add_or_update s rec u t).1.changes = s.changes ++
        [⟨rec.title.getD "Unknown", "add", none, none, some u, t⟩]) ∧
    (∀ idx, dictGet s.title_to_idx (rec.title.getD "Unknown") = some idx →
      hash_recipe (s.recipes.getD idx default) ≠ hash_recipe rec →
      (add_or_update s rec u t).1.changes = s.changes ++
        [⟨rec.title.getD "Unknown", "update",
          some (hash_recipe (s.recipes.getD idx default)),
          some (hash_recipe rec), some u, t⟩]) ∧
    (∀ idx, dictGet s.title_to_idx title = some idx →
      (delete_recipe s title now).1.changes = s.changes ++
        [⟨title, "delete", none, none, none, now⟩]) := by
  refine ⟨fun h => ?_, fun idx h hh => ?_, fun idx h => ?_⟩
  · rw [add_branch s rec u t h]
  · rw [update_branch s rec u t idx h hh]
  · rw [delete_found_branch s title now idx h]

/-- C6 witness: the amended add-entry shape on the empty store. -/
theorem C6_change_entry_shapes_witness :
    (add_or_update emptyStore recSoup "uw" "tw").1.changes = emptyStore.changes ++
      [⟨recSoup.title.getD "Unknown", "add", none, none, some "uw", "tw"⟩] :=
  (C6_change_entry_shapes emptyStore recSoup "uw" "tw" "Soup" "tw").1 (by decide)

/-- C9: index size equals table size as an invariant of every public
mutating operation: adding a new title appends one slot and one vector;
`add_or_update` on a known title leaves both sizes unchanged (the update
path removes one vector and appends one); `delete_recipe` changes neither
the table length nor the index contents. -/
theorem C9_index_table_size_invariant (s : StoreState) (rec : Recipe)
    (u t title now : String) (hwf : WF s)
    (hsz : s.index.length = s.recipes.length) :
    ((add_or_update s rec u t).1.index.length =
      (add_or_update s rec u t).1.recipes.length) ∧
    (dictGet s.title_to_idx (rec.title.getD "Unknown") = none →
      (add_or_update s rec u t).1.recipes.length = s.recipes.length + 1 ∧
      (add_or_update s rec u t).1.index.length = s.index.length + 1) ∧
    (∀ idx, dictGet s.title_to_idx (rec.title.getD "Unknown") = some idx →
      (add_or_update s rec u t).1.recipes.length = s.recipes.length ∧
      (add_or_update s rec u t).1.index.length = s.index.length) ∧
    ((delete_recipe s title now).1.recipes.length = s.recipes.length ∧
     (delete_recipe s title now).1.index = s.index) := by
  have hdel : (delete_recipe s title now).1.recipes.length = s.recipes.length ∧
      (delete_recipe s title now).1.index = s.index := by
    cases hd : dictGet s.title_to_idx title with
    | none => rw [delete_missing_branch s title now hd]; exact ⟨rfl, rfl⟩
    | some idx => rw [delete_found_branch s title now idx hd]; simp
  cases h : dictGet s.title_to_idx (rec.title.getD "Unknown") with
  | none =>
    rw [add_branch s rec u t h]
    exact ⟨by simp [hsz], fun _ => by simp, fun idx hidx => by simp at hidx, hdel⟩
  | some idx =>
    have hidx : idx < s.recipes.length := hwf _ (dictGet_mem h)
    have hidx2 : idx < s.index.length := by rw [hsz]; exact hidx
    by_cases hh : hash_recipe (s.recipes.getD idx default) = hash_recipe rec
    · rw [nochange_branch s rec u t idx h hh]
      exact ⟨hsz, fun hnone => by simp at hnone, fun _ _ => ⟨rfl, rfl⟩, hdel⟩
    · rw [update_branch s rec u t idx h hh]
      have hlen : (s.index.eraseIdx idx ++ [create_search_text rec]).length =
          s.index.length := by
        simp only [List.length_append, List.length_cons, List.length_nil]
        rw [← length_eraseIdx_add_one hidx2]
      refine ⟨?_, fun hnone => by simp at hnone,
        fun _ _ => ⟨by simp, hlen⟩, hdel⟩
      show (s.index.eraseIdx idx ++ [create_search_text rec]).length =
        (s.recipes.set idx rec).length
      rw [hlen, List.length_set, hsz]

/-- C9 witness: the invariant instantiated on a store holding one recipe,
adding a fresh title and deleting the present one. -/
theorem C9_index_table_size_invariant_witness :
    ((add_or_update stateC8 recPasta "uw" "t5").1.index.length =
      (add_or_update stateC8 recPasta "uw" "t5").1.recipes.length) ∧
    ((delete_recipe stateC8 "Curry" "t5").1.recipes.length =
      stateC8.recipes.length ∧
     (delete_recipe stateC8 "Curry" "t5").1.index = stateC8.index) :=
  ⟨(C9_index_table_size_invariant stateC8 recPasta "uw" "t5" "Curry" "t5"
      (by decide) (by decide)).1,
   (C9_index_table_size_invariant stateC8 recPasta "uw" "t5" "Curry" "t5"
      (by decide) (by decide)).2.2.2⟩

/-- C10: a record submitted without a title is keyed under `"Unknown"`:
the first such record is added at a fresh slot mapped from `"Unknown"`,
and a second, content-distinct titleless record is treated as an update of
that same slot (action `"updated"`, no new slot, the `"Unknown"` mapping
unchanged), so at most one titleless record is tracked at any time. -/
theorem C10_titleless_records_share_unknown_slot (s : StoreState)
    (r1 r2 : Recipe) (u1 u2 t1 t2 : String)
    (h1 : r1.title = none) (h2 : r2.title = none) (hne : r1 ≠ r2)
    (habs : dictGet s.title_to_idx "Unknown" = none) :
    (add_or_update s r1 u1 t1).2.title = "Unknown" ∧
    (add_or_update s r1 u1 t1).2.action = "added" ∧
    dictGet (add_or_update s r1 u1 t1).1.title_to_idx "Unknown" =
      some s.recipes.length ∧
    (add_or_update (add_or_update s r1 u1 t1).1 r2 u2 t2).2.action = "updated" ∧
    (add_or_update (add_or_update s r1 u1 t1).1 r2 u2 t2).1.recipes.length =
      (add_or_update s r1 u1 t1).1.recipes.length ∧
    dictGet (add_or_update (add_or_update s r1 u1 t1).1 r2 u2 t2).1.title_to_idx
      "Unknown" = some s.recipes.length := by
  have hu1 : r1.title.getD "Unknown" = "Unknown" := by rw [h1]; rfl
  have hu2 : r2.title.getD "Unknown" = "Unknown" := by rw [h2]; rfl
  have habs1 : dictGet s.title_to_idx (r1.title.getD "Unknown") = none := by
    rw [hu1]; exact habs
  have hb1 := add_branch s r1 u1 t1 habs1
  rw [hu1] at hb1
  have hmap : dictGet (add_or_update s r1 u1 t1).1.title_to_idx "Unknown" =
      some s.recipes.length := by
    rw [hb1]
    exact dictGet_dictSet_self _ habs
  have hold : ((add_or_update s r1 u1 t1).1.recipes).getD s.recipes.length default
      = r1 := by
    rw [hb1]
    exact getD_append_length _ _ _
  have hhash : ¬ hash_recipe
      (((add_or_update s r1 u1 t1).1.recipes).getD s.recipes.length default) =
      hash_recipe r2 := by
    rw [hold]
    intro hcontra
    exact hne (hash_recipe_injective hcontra)
  have hmap2 : dictGet (add_or_update s r1 u1 t1).1.title_to_idx
      (r2.title.getD "Unknown") = some s.recipes.length := by
    rw [hu2]; exact hmap
  have hb2 := update_branch (add_or_update s r1 u1 t1).1 r2 u2 t2
    s.recipes.length hmap2 hhash
  refine ⟨by rw [hb1], by rw [hb1], hmap, by rw [hb2], ?_, ?_⟩
  · rw [hb2]
    simp
  · rw [hb2]
    exact hmap

/-- Every result the candidate loop accepts beyond its initial accumulator
was not rejected by the provided filters. -/
theorem searchLoop_filter_sound (cfg : Config) (s : StoreState) (query : String)
    (fl : Filters) (k : Nat) :
    ∀ (neighbors : List (ℚ × Nat)) (acc : List SearchResult),
      ∀ r ∈ searchLoop cfg s query (some fl) k acc neighbors,
        r ∈ acc ∨ filterReject fl r.recipe = false := by
  intro neighbors
  induction neighbors with
  | nil =>
    intro acc r hr
    exact Or.inl (by simpa [searchLoop] using hr)
  | cons p rest ih =>
    intro acc r hr
    rcases p with ⟨dist, idx⟩
    simp only [searchLoop] at hr
    split at hr
    · exact ih acc r hr
    · split at hr
      · exact ih acc r hr
      · rename_i hnotrej
        have hfalse : filterReject fl (s.recipes.getD idx default) = false := by
          revert hnotrej
          cases filterReject fl (s.recipes.getD idx default) <;> simp
        split at hr
        · split at hr
          · rcases List.mem_append.1 hr with hm | hm
            · exact Or.inl hm
            · right
              have hre : r.recipe = s.recipes.getD idx default := by
                rw [List.mem_singleton.1 hm]
              rw [hre]
              exact hfalse
          · rcases ih _ r hr with hm | hm
            · rcases List.mem_append.1 hm with hm2 | hm2
              · exact Or.inl hm2
              · right
                have hre : r.recipe = s.recipes.getD idx default := by
                  rw [List.mem_singleton.1 hm2]
                rw [hre]
                exact hfalse
            · exact Or.inr hm
        · exact ih acc r hr

/-- C8 counterexample: a filters dict whose `cuisine` key is set to the
empty string is falsy in the code's truthiness test and is ignored, so a
result whose cuisine is `"Thai"` is returned although it differs from the
set filter value. -/
theorem C8_empty_filter_value_ignored :
    (search defaultConfig stateC8 "dinner" (some ⟨some "", none⟩) none
      [(0, 0)]).results.map (fun r => r.recipe.cuisine) = [some "Thai"] ∧
    ¬ (some "Thai" = some "") := by
  refine ⟨?_, by decide⟩
  simp only [search, searchLoop, stateC8, defaultConfig, recThai, emptyStore,
    add_or_update, dictGet, dictSet, hash_recipe, create_search_text, joinWith,
    filterReject, validate_match, titleScore, ingredientScore, cuisineScore,
    dietScore, pyIn, pyLower, pySplitWs, splitWsAux, isInfixChars, isPrefixChars,
    get_confidence_level]
  norm_num

/-- C8 amended: with a cuisine (resp. diet) filter set to a non-empty
string, every returned result's record carries exactly that cuisine
(resp. diet), by case-sensitive string equality; an empty-string filter
value is falsy in Python and is treated as unset. -/
theorem C8_filter_exact_match (cfg : Config) (s : StoreState) (query : String)
    (fl : Filters) (k : Option Nat) (neighbors : List (ℚ × Nat)) :
    ∀ r ∈ (search cfg s query (some fl) k neighbors).results,
      (∀ c, fl.cuisine = some c → c ≠ "" → r.recipe.cuisine = some c) ∧
      (∀ d, fl.diet = some d → d ≠ "" → r.recipe.diet = some d) := by
  intro r hr
  simp only [search] at hr
  rcases searchLoop_filter_sound cfg s query fl (k.getD cfg.TOP_K) neighbors [] r hr
    with hm | hrej
  · simp at hm
  · constructor
    · intro c hc hne
      simp only [filterReject, hc] at hrej
      simp only [Bool.or_eq_false_iff, Bool.and_eq_false_iff,
        decide_eq_false_iff_not, not_not] at hrej
      rcases hrej.1 with hbad | hgood
      · exact absurd hbad hne
      · exact hgood
    · intro d hd hne
      simp only [filterReject, hd] at hrej
      simp only [Bool.or_eq_false_iff, Bool.and_eq_false_iff,
        decide_eq_false_iff_not, not_not] at hrej
      rcases hrej.2 with hbad | hgood
      · exact absurd hbad hne
      · exact hgood

/-- C8 witness: the amended filter guarantee at a concrete store, query
and a non-empty cuisine filter. -/
theorem C8_filter_exact_match_witness :
    ((search defaultConfig stateC8 "dinner" (some ⟨some "Thai", none⟩) none
      [(0, 0)]).results.getD 0 default).recipe.cuisine = some "Thai" := by
  have hne : (search defaultConfig stateC8 "dinner" (some ⟨some "Thai", none⟩)
      none [(0, 0)]).results ≠ [] := by
    simp only [search, searchLoop, stateC8, defaultConfig, recThai, emptyStore,
      add_or_update, dictGet, dictSet, hash_recipe, create_search_text, joinWith,
      filterReject, validate_match, titleScore, ingredientScore, cuisineScore,
      dietScore, pyIn, pyLower, pySplitWs, splitWsAux, isInfixChars, isPrefixChars,
      get_confidence_level]
    norm_num
  exact ((C8_filter_exact_match defaultConfig stateC8 "dinner" ⟨some "Thai", none⟩
    none [(0, 0)]) _ (getD_zero_mem default hne)).1 "Thai" rfl (by decide)

/-- The code's per-fact match test agrees with the claim's overlap-ratio
formulation (a fact with no token longer than 3 characters matches
neither way: the code's guard returns false and the claim's ratio is 0). -/
theorem fact_matches_agrees (f txt : String) :
    fact_matches f (pySplitWs txt) = decide (claimOverlapFrac f txt > 3/10) := by
  by_cases h : ((pySplitWs (pyLower f)).filter (fun w => w.length > 3)).dedup = []
  · simp only [fact_matches, claimOverlapFrac, h]
    norm_num
  · simp only [fact_matches, claimOverlapFrac]
    rw [if_pos h]

/-- The per-source score computed by `validate_answer` is the claim's
per-source score. -/
theorem sourceScore_eq (facts : List String) (source : Recipe) :
    (if facts ≠ [] then
      (((facts.filter (fun f =>
        fact_matches f (pySplitWs (pyLower (dump_json source))))).length : ℚ) /
        facts.length)
    else 0) = claimSourceScore facts source := by
  by_cases hf : facts = []
  · simp [hf, claimSourceScore]
  · simp only [hf, ne_eq, not_false_iff, if_true, claimSourceScore]
    have : facts.filter (fun f =>
        fact_matches f (pySplitWs (pyLower (dump_json source)))) =
      facts.filter (fun f =>
        claimOverlapFrac f (pyLower (dump_json source)) > 3/10) := by
      apply List.filter_congr
      intro f _
      rw [fact_matches_agrees]
    rw [this]

/-- C7: `validate_answer` on an empty sources list returns
`{valid: false, score: 0, confidence: "low"}` for every answer, without a
`sources_checked` key; on a non-empty sources list the returned flag is
`valid = (mean per-source score > 0.3)` with the mean per-source score as
the claim states it, and confidence is `"high"` above 0.6, `"medium"`
above 0.3 and `"low"` otherwise. -/
theorem C7_validate_answer_contract :
    (∀ answer, validate_answer answer [] = ⟨false, 0, "low", none⟩) ∧
    (∀ answer sources, sources ≠ [] →
      validate_answer answer sources =
        ⟨decide (claimMeanScore answer sources > 3/10),
         claimMeanScore answer sources,
         if claimMeanScore answer sources > 6/10 then "high"
         else if claimMeanScore answer sources > 3/10 then "medium" else "low",
         some sources.length⟩) := by
  constructor
  · intro answer
    simp [validate_answer]
  · intro answer sources hs
    have hmap : sources.map (fun source =>
        let source_words := pySplitWs (pyLower (dump_json source))
        let matched := ((extract_facts answer).filter
          (fun f => fact_matches f source_words)).length
        if extract_facts answer ≠ [] then
          (matched : ℚ) / (extract_facts answer).length
        else 0) =
      sources.map (claimSourceScore (extract_facts answer)) := by
      apply List.map_congr_left
      intro source _
      exact sourceScore_eq (extract_facts answer) source
    simp only [validate_answer, hs, if_neg hs]
    rw [hmap]
    simp only [claimMeanScore, List.length_map]
    rfl

/-- C7 witness: the contract instantiated at a concrete answer and a
one-element sources list. -/
theorem C7_validate_answer_contract_witness :
    validate_answer "Boil the pasta with fresh garlic until it is done."
      [recPasta] =
      ⟨decide (claimMeanScore
          "Boil the pasta with fresh garlic until it is done." [recPasta] > 3/10),
       claimMeanScore
         "Boil the pasta with fresh garlic until it is done." [recPasta],
       if claimMeanScore
           "Boil the pasta with fresh garlic until it is done." [recPasta] > 6/10
       then "high"
       else if claimMeanScore
           "Boil the pasta with fresh garlic until it is done." [recPasta] > 3/10
       then "medium" else "low",
       some 1⟩ :=
  C7_validate_answer_contract.2
    "Boil the pasta with fresh garlic until it is done." [recPasta] (by decide)

/-- C10 witness: two distinct titleless records on the empty store land on
the one `"Unknown"` slot. -/
theorem C10_titleless_records_share_unknown_slot_witness :
    (add_or_update emptyStore recNoTitleA "u1" "t1").2.title = "Unknown" ∧
    (add_or_update (add_or_update emptyStore recNoTitleA "u1" "t1").1
      recNoTitleB "u2" "t2").2.action = "updated" ∧
    dictGet (add_or_update (add_or_update emptyStore recNoTitleA "u1" "t1").1
      recNoTitleB "u2" "t2").1.title_to_idx "Unknown" =
      some emptyStore.recipes.length :=
  ⟨(C10_titleless_records_share_unknown_slot emptyStore recNoTitleA recNoTitleB
      "u1" "u2" "t1" "t2" rfl rfl (by decide) rfl).1,
   (C10_titleless_records_share_unknown_slot emptyStore recNoTitleA recNoTitleB
      "u1" "u2" "t1" "t2" rfl rfl (by decide) rfl).2.2.2.1,
   (C10_titleless_records_share_unknown_slot emptyStore recNoTitleA recNoTitleB
      "u1" "u2" "t1" "t2" rfl rfl (by decide) rfl).2.2.2.2.2⟩

end RecipeRag
